import Mathlib

/-!
Verification of the libspdm extract: responder response-state gating
(`libspdm_rsp_handle_response_state.c`), encapsulated ERROR generation
(`encap_error.c`), the OpenSSL EC wrapper (`ec.c`), the mbedTLS
SHA-384/SHA-512 wrappers (`sha512.c`) and the dummy ChaCha20-Poly1305
AEAD backend (`aead_chacha20_poly1305.c`), as a shallow embedding in Lean.

Machine integers are modelled as `Nat` with explicit `% 2 ^ w` where the C
performs wrapping arithmetic; C pointers that the code checks against NULL
are modelled as `Option` (or an explicit `_null : Bool` flag for output
buffers the code only writes through); byte buffers are `List Nat`.
`ASSERT` in this codebase is debug-only instrumentation and compiles away
in release builds, so it is modelled as a no-op.
-/

/-! ## Wire and status constants (DSP0274 / libspdm headers) -/

def RETURN_SUCCESS : Nat := 0

def SPDM_MESSAGE_VERSION_11 : Nat := 0x11

def SPDM_ERROR : Nat := 0x7F

def SPDM_ERROR_CODE_BUSY : Nat := 0x03

def SPDM_ERROR_CODE_REQUEST_IN_FLIGHT : Nat := 0x08

def SPDM_ERROR_CODE_RESPONSE_NOT_READY : Nat := 0x42

def SPDM_ERROR_CODE_REQUEST_RESYNCH : Nat := 0x43

def SPDM_RESPOND_IF_READY : Nat := 0xFF

def SPDM_ENCAPSULATED_RESPONSE_ACK : Nat := 0x6B

/-! ## Data model: SPDM context (the fields touched by the extract) -/

inductive spdm_response_state_t where
  | normal
  | busy
  | not_ready
  | need_resync
  | processing_encap
deriving DecidableEq

inductive spdm_connection_state_t where
  | not_started
  | after_version
  | after_capabilities
  | negotiated
  | after_digests
  | after_certificate
  | authenticated
deriving DecidableEq

/-- The `spdm_error_data_response_not_ready_t` extended-error payload:
four `uint8` fields. -/
structure spdm_error_data_response_not_ready_t where
  rd_exponent : Nat
  request_code : Nat
  token : Nat
  rd_tm : Nat
deriving DecidableEq

structure spdm_context_t where
  response_state : spdm_response_state_t
  connection_state : spdm_connection_state_t
  /-- `uint8 current_token` -/
  current_token : Nat
  error_data : spdm_error_data_response_not_ready_t
  cache_spdm_request : List Nat
  cache_spdm_request_size : Nat
  last_spdm_request : List Nat
  last_spdm_request_size : Nat
deriving DecidableEq

/-- `copy_mem(dst, src, n)`: overwrite the first `n` bytes of `dst` with the
first `n` bytes of `src`, leaving the tail of `dst` in place. -/
def copy_mem (dst src : List Nat) (n : Nat) : List Nat :=
  src.take n ++ dst.drop n

/-- The four-byte SPDM message header. -/
structure spdm_message_header_t where
  spdm_version : Nat
  request_response_code : Nat
  param1 : Nat
  param2 : Nat
deriving DecidableEq

/-- What `spdm_responder_handle_response_state` leaves in the caller's
response buffer: untouched (default case), a plain ERROR response, or an
ERROR response followed by the extended RESPONSE_NOT_READY payload.  The
final `Nat` is the value stored through `response_size`. -/
inductive responder_rsp_t where
  | untouched
  | error_rsp (h : spdm_message_header_t) (size : Nat)
  | extended_error_rsp (h : spdm_message_header_t)
      (ext : spdm_error_data_response_not_ready_t) (size : Nat)
deriving DecidableEq

/-- Modelled from the spec: `libspdm_generate_error_response` is code of
this repository that is not under `src/`.  Per §4.1 every SPDM message
begins with the four-byte header `{version, request_response_code, param1,
param2}`, and — as the in-repo `spdm_generate_encap_error_response` does —
an ERROR reply carries the error code in `param1` and the error data in
`param2` under version 1.1.  It writes only the response buffer and its
size; it does not touch the context. -/
def libspdm_generate_error_response (error_code error_data : Nat) :
    spdm_message_header_t × Nat :=
  (⟨SPDM_MESSAGE_VERSION_11, SPDM_ERROR, error_code, error_data⟩, 4)

/-- Modelled from the spec: `libspdm_generate_extended_error_response` is
code of this repository that is not under `src/`.  As the in-repo
`spdm_generate_encap_extended_error_response` does, it writes the ERROR
header and then the extended error data immediately after it, reporting
`sizeof(header) + sizeof(extended data)` (= 4 + 4) as the response size. -/
def libspdm_generate_extended_error_response (error_code error_data : Nat)
    (ext : spdm_error_data_response_not_ready_t) :
    (spdm_message_header_t × spdm_error_data_response_not_ready_t) × Nat :=
  ((⟨SPDM_MESSAGE_VERSION_11, SPDM_ERROR, error_code, error_data⟩, ext), 4 + 4)

/-- Modelled from the spec: `spdm_set_connection_state` is code of this
repository that is not under `src/`; per §3 it stores the given value in
the context's `connection_state`. -/
def spdm_set_connection_state (ctx : spdm_context_t)
    (s : spdm_connection_state_t) : spdm_context_t :=
  { ctx with connection_state := s }

/-- `spdm_responder_handle_response_state` from
`src/library/spdm_responder_lib/libspdm_rsp_handle_response_state.c`,
returning `(return_status, response buffer contents, updated context)`.
`current_token++` is a `uint8` post-increment, hence the `% 256`. -/
def spdm_responder_handle_response_state (ctx : spdm_context_t)
    (request_code : Nat) : Nat × responder_rsp_t × spdm_context_t :=
  match ctx.response_state with
  | .busy =>
    let r := libspdm_generate_error_response SPDM_ERROR_CODE_BUSY 0
    (RETURN_SUCCESS, .error_rsp r.1 r.2, ctx)
  | .need_resync =>
    let r := libspdm_generate_error_response SPDM_ERROR_CODE_REQUEST_RESYNCH 0
    (RETURN_SUCCESS, .error_rsp r.1 r.2,
      spdm_set_connection_state ctx .not_started)
  | .not_ready =>
    let ctx2 :=
      if request_code ≠ SPDM_RESPOND_IF_READY then
        { ctx with
          cache_spdm_request_size := ctx.last_spdm_request_size,
          cache_spdm_request :=
            copy_mem ctx.cache_spdm_request ctx.last_spdm_request
              ctx.last_spdm_request_size,
          error_data :=
            { rd_exponent := 1, request_code := request_code,
              token := ctx.current_token, rd_tm := 1 },
          current_token := (ctx.current_token + 1) % 256 }
      else ctx
    let r := libspdm_generate_extended_error_response
      SPDM_ERROR_CODE_RESPONSE_NOT_READY 0 ctx2.error_data
    (RETURN_SUCCESS, .extended_error_rsp r.1.1 r.1.2 r.2, ctx2)
  | .processing_encap =>
    let r := libspdm_generate_error_response SPDM_ERROR_CODE_REQUEST_IN_FLIGHT 0
    (RETURN_SUCCESS, .error_rsp r.1 r.2, ctx)
  | .normal => (RETURN_SUCCESS, .untouched, ctx)

/-- The token carried by an emitted extended RESPONSE_NOT_READY payload. -/
def emitted_token (r : responder_rsp_t) : Option Nat :=
  match r with
  | .extended_error_rsp _ e _ => some e.token
  | _ => none

/-! ## Encapsulated ERROR generation (`src/library/spdm_requester_lib/encap_error.c`)

Here the response buffer is modelled at byte level: the functions overwrite
a prefix of the caller's buffer and leave the remaining bytes in place.
The `ASSERT(*response_size >= ...)` is debug-only and compiles away. -/

/-- `spdm_generate_encap_error_response`: writes the four header bytes
`{SPDM 1.1, ERROR, error_code, error_data}` into `response`, stores 4 in
`*response_size`, and returns RETURN_SUCCESS.
Result: `(status, *response_size, response buffer)`. -/
def spdm_generate_encap_error_response (error_code error_data : Nat)
    (response_size : Nat) (response : List Nat) : Nat × Nat × List Nat :=
  let header := [SPDM_MESSAGE_VERSION_11, SPDM_ERROR, error_code, error_data]
  (RETURN_SUCCESS, 4, header ++ response.drop 4)

/-- `spdm_generate_encap_extended_error_response`: writes the four header
bytes, then `copy_mem`s `extended_error_data_size` bytes of the extended
error data immediately after the header, stores `4 + extended_error_data_size`
in `*response_size`, and returns RETURN_SUCCESS.
Result: `(status, *response_size, response buffer)`. -/
def spdm_generate_encap_extended_error_response (error_code error_data : Nat)
    (extended_error_data_size : Nat) (extended_error_data : List Nat)
    (response_size : Nat) (response : List Nat) : Nat × Nat × List Nat :=
  let header := [SPDM_MESSAGE_VERSION_11, SPDM_ERROR, error_code, error_data]
  let written := header ++ extended_error_data.take extended_error_data_size
  (RETURN_SUCCESS, 4 + extended_error_data_size,
    written ++ response.drop written.length)

/-! ## EC wrapper (`src/os_stub/cryptlib_openssl/pk/ec.c`)

The OpenSSL backend (`EC_KEY_*`, `BN_*`, `ECDSA_do_sign`) is external to
the repository; its per-call outcomes are modelled as fields of the
`EC_KEY` environment record.  The wrapper's own control flow — NULL
checks, curve dispatch, buffer-size check and required-size reporting,
zero-padding of the big-endian output — is translated exactly. -/

inductive openssl_nid_t where
  | prime256v1
  | secp384r1
  | secp521r1
  | unsupported
deriving DecidableEq

/-- The `switch (openssl_nid)` that picks `half_size`; `none` is the
`default: return FALSE` branch. -/
def ec_half_size : openssl_nid_t → Option Nat
  | .prime256v1 => some 32
  | .secp384r1 => some 48
  | .secp521r1 => some 66
  | .unsupported => none

/-- An established `EC_KEY` together with the outcomes of the external
OpenSSL primitives invoked on it. -/
structure EC_KEY where
  /-- curve of the key (`EC_GROUP_get_curve_name`) -/
  nid : openssl_nid_t
  /-- affine coordinates of the public point; `none` models
  `EC_KEY_get0_public_key` returning NULL -/
  pub_point : Option (Nat × Nat)
  /-- whether `EC_KEY_generate_key` succeeds -/
  generate_ok : Bool
  /-- whether the `BN_new` allocations succeed -/
  bn_alloc_ok : Bool
  /-- whether `EC_POINT_get_affine_coordinates` succeeds -/
  coords_ok : Bool
  /-- `(r, s)` from `ECDSA_do_sign`; `none` models signing failure -/
  sign_result : Option (Nat × Nat)
deriving DecidableEq

/-- `BN_num_bytes`: minimal big-endian byte length of a natural number. -/
def bn_num_bytes (n : Nat) : Nat :=
  if n = 0 then 0 else Nat.log 256 n + 1

/-- Big-endian encoding of `n` left-padded with zeros to `k` bytes: the
result of `zero_mem` followed by `BN_bn2bin` at offset `k - bn_num_bytes n`. -/
def be_bytes (k n : Nat) : List Nat :=
  (List.range k).map (fun i => n / 256 ^ (k - 1 - i) % 256)

/-- `ec_get_pub_key(ec_context, public_key, public_key_size)`.
`public_key_null` models `public_key == NULL`; `public_key_size` is
`none` when the size pointer itself is NULL.
Result: `(boolean, final *public_key_size, bytes written to public_key)`. -/
def ec_get_pub_key (ec_context : Option EC_KEY) (public_key_null : Bool)
    (public_key_size : Option Nat) : Bool × Option Nat × List Nat :=
  match ec_context, public_key_size with
  | none, s => (false, s, [])
  | some _, none => (false, none, [])
  | some k, some sz =>
    if public_key_null = true ∧ sz ≠ 0 then (false, some sz, [])
    else
      match ec_half_size k.nid with
      | none => (false, some sz, [])
      | some half =>
        if sz < half * 2 then (false, some (half * 2), [])
        else
          match k.pub_point with
          | none => (false, some (half * 2), [])
          | some (x, y) =>
            if k.bn_alloc_ok = false then (false, some (half * 2), [])
            else if k.coords_ok = false then (false, some (half * 2), [])
            else if bn_num_bytes x = 0 ∨ bn_num_bytes y = 0 then
              (false, some (half * 2), [])
            else if public_key_null = true then (true, some (half * 2), [])
            else (true, some (half * 2), be_bytes half x ++ be_bytes half y)

/-- `ec_generate_key(ec_context, public, public_size)`: as
`ec_get_pub_key` but `EC_KEY_generate_key` runs first (before the curve
dispatch and the size check).
Result: `(boolean, final *public_size, bytes written to public)`. -/
def ec_generate_key (ec_context : Option EC_KEY) (public_null : Bool)
    (public_size : Option Nat) : Bool × Option Nat × List Nat :=
  match ec_context, public_size with
  | none, s => (false, s, [])
  | some _, none => (false, none, [])
  | some k, some sz =>
    if public_null = true ∧ sz ≠ 0 then (false, some sz, [])
    else if k.generate_ok = false then (false, some sz, [])
    else
      match ec_half_size k.nid with
      | none => (false, some sz, [])
      | some half =>
        if sz < half * 2 then (false, some (half * 2), [])
        else
          match k.pub_point with
          | none => (false, some (half * 2), [])
          | some (x, y) =>
            if k.bn_alloc_ok = false then (false, some (half * 2), [])
            else if k.coords_ok = false then (false, some (half * 2), [])
            else if bn_num_bytes x = 0 ∨ bn_num_bytes y = 0 then
              (false, some (half * 2), [])
            else if public_null = true then (true, some (half * 2), [])
            else (true, some (half * 2), be_bytes half x ++ be_bytes half y)

def CRYPTO_NID_SHA256 : Nat := 1

def CRYPTO_NID_SHA384 : Nat := 2

def CRYPTO_NID_SHA512 : Nat := 3

def SHA256_DIGEST_SIZE : Nat := 32

def SHA384_DIGEST_SIZE : Nat := 48

def SHA512_DIGEST_SIZE : Nat := 64

/-- The `switch (hash_nid)` of `ecdsa_sign`: the hash size must match the
named algorithm, any other NID is rejected. -/
def ecdsa_sign_hash_check (hash_nid hash_size : Nat) : Bool :=
  if hash_nid = CRYPTO_NID_SHA256 then hash_size == SHA256_DIGEST_SIZE
  else if hash_nid = CRYPTO_NID_SHA384 then hash_size == SHA384_DIGEST_SIZE
  else if hash_nid = CRYPTO_NID_SHA512 then hash_size == SHA512_DIGEST_SIZE
  else false

/-- `ecdsa_sign(ec_context, hash_nid, message_hash, hash_size, signature,
sig_size)`.  `signature_null` models `signature == NULL`; after the size
check passes, `*sig_size` is set to `half_size * 2` and the signature
buffer is zeroed before any further failure can occur.
Result: `(boolean, final *sig_size, signature buffer contents)`. -/
def ecdsa_sign (ec_context : Option EC_KEY) (hash_nid : Nat)
    (message_hash : Option (List Nat)) (hash_size : Nat)
    (signature_null : Bool) (sig_size : Nat) : Bool × Nat × List Nat :=
  match ec_context, message_hash with
  | none, _ => (false, sig_size, [])
  | some _, none => (false, sig_size, [])
  | some k, some _mh =>
    if signature_null = true then (false, sig_size, [])
    else
      match ec_half_size k.nid with
      | none => (false, sig_size, [])
      | some half =>
        if sig_size < half * 2 then (false, half * 2, [])
        else if ecdsa_sign_hash_check hash_nid hash_size = false then
          (false, half * 2, List.replicate (half * 2) 0)
        else
          match k.sign_result with
          | none => (false, half * 2, List.replicate (half * 2) 0)
          | some (r, s) =>
            if bn_num_bytes r = 0 ∨ bn_num_bytes s = 0 then
              (false, half * 2, List.replicate (half * 2) 0)
            else (true, half * 2, be_bytes half r ++ be_bytes half s)

/-! ## SHA-384 / SHA-512 wrappers (`src/os_stub/cryptlib_mbedtls/hash/sha512.c`)

The mbedTLS backend is external; `mbedtls_ret` is the value it would
return if invoked.  Each wrapper returns `(boolean result, whether the
mbedTLS backend was actually invoked)`, so "returns FALSE without invoking
the underlying hash backend" is directly expressible. -/

def INT_MAX : Nat := 2147483647

/-- `sha384_update(sha384_context, data, data_size)`. -/
def sha384_update (sha384_context_null : Bool) (data_null : Bool)
    (data_size : Nat) (mbedtls_ret : Int) : Bool × Bool :=
  if sha384_context_null = true then (false, false)
  else if data_null = true ∧ data_size ≠ 0 then (false, false)
  else if data_size > INT_MAX then (false, false)
  else if mbedtls_ret ≠ 0 then (false, true)
  else (true, true)

/-- `sha384_hash_all(data, data_size, hash_value)`. -/
def sha384_hash_all (data_null : Bool) (data_size : Nat)
    (hash_value_null : Bool) (mbedtls_ret : Int) : Bool × Bool :=
  if hash_value_null = true then (false, false)
  else if data_null = true ∧ data_size ≠ 0 then (false, false)
  else if data_size > INT_MAX then (false, false)
  else if mbedtls_ret ≠ 0 then (false, true)
  else (true, true)

/-- `sha512_update(sha512_context, data, data_size)`. -/
def sha512_update (sha512_context_null : Bool) (data_null : Bool)
    (data_size : Nat) (mbedtls_ret : Int) : Bool × Bool :=
  if sha512_context_null = true then (false, false)
  else if data_null = true ∧ data_size ≠ 0 then (false, false)
  else if data_size > INT_MAX then (false, false)
  else if mbedtls_ret ≠ 0 then (false, true)
  else (true, true)

/-- `sha512_hash_all(data, data_size, hash_value)`. -/
def sha512_hash_all (data_null : Bool) (data_size : Nat)
    (hash_value_null : Bool) (mbedtls_ret : Int) : Bool × Bool :=
  if hash_value_null = true then (false, false)
  else if data_null = true ∧ data_size ≠ 0 then (false, false)
  else if data_size > INT_MAX then (false, false)
  else if mbedtls_ret ≠ 0 then (false, true)
  else (true, true)

/-! ## Dummy ChaCha20-Poly1305 AEAD
(`src/unit_test/test_size/cryptlib_dummy/cipher/aead_chacha20_poly1305.c`)

Both functions are `ASSERT(FALSE); return FALSE;` — the `ASSERT` is
debug-only, so in release builds they return FALSE for every input and
write none of their output parameters. -/

def aead_chacha20_poly1305_encrypt (key : List Nat) (key_size : Nat)
    (iv : List Nat) (iv_size : Nat) (a_data : List Nat) (a_data_size : Nat)
    (data_in : List Nat) (data_in_size : Nat) (tag_size : Nat) : Bool :=
  false

def aead_chacha20_poly1305_decrypt (key : List Nat) (key_size : Nat)
    (iv : List Nat) (iv_size : Nat) (a_data : List Nat) (a_data_size : Nat)
    (data_in : List Nat) (data_in_size : Nat) (tag : List Nat)
    (tag_size : Nat) : Bool :=
  false

/-! ## Sample contexts used by the witnesses -/

def ctx_c1 : spdm_context_t :=
  { response_state := .not_ready, connection_state := .authenticated,
    current_token := 5, error_data := ⟨0, 0, 0, 0⟩,
    cache_spdm_request := [7, 7, 7, 7], cache_spdm_request_size := 0,
    last_spdm_request := [0x11, 0x84, 0, 0], last_spdm_request_size := 4 }

def ctx_c2 : spdm_context_t :=
  { response_state := .not_ready, connection_state := .authenticated,
    current_token := 255, error_data := ⟨0, 0, 0, 0⟩,
    cache_spdm_request := [], cache_spdm_request_size := 0,
    last_spdm_request := [0x11, 0x81], last_spdm_request_size := 2 }

def ctx_c3 : spdm_context_t :=
  { response_state := .not_ready, connection_state := .negotiated,
    current_token := 9, error_data := ⟨1, 0x84, 8, 1⟩,
    cache_spdm_request := [0x11, 0x84], cache_spdm_request_size := 2,
    last_spdm_request := [0x11, 0xFF, 8, 0x84], last_spdm_request_size := 4 }

def ctx_c4 : spdm_context_t :=
  { response_state := .need_resync, connection_state := .authenticated,
    current_token := 3, error_data := ⟨0, 0, 0, 0⟩,
    cache_spdm_request := [], cache_spdm_request_size := 0,
    last_spdm_request := [0x11, 0x82], last_spdm_request_size := 2 }

def ctx_c5 : spdm_context_t :=
  { response_state := .busy, connection_state := .after_version,
    current_token := 11, error_data := ⟨1, 2, 3, 4⟩,
    cache_spdm_request := [5, 6], cache_spdm_request_size := 2,
    last_spdm_request := [0x11, 0x83], last_spdm_request_size := 2 }

def ctx_c6 : spdm_context_t :=
  { response_state := .processing_encap, connection_state := .authenticated,
    current_token := 0, error_data := ⟨0, 0, 0, 0⟩,
    cache_spdm_request := [], cache_spdm_request_size := 0,
    last_spdm_request := [0x11, 0x84], last_spdm_request_size := 2 }

/-! ## Claims about the responder response-state gating -/

/-- Claim C1: with `response_state = NotReady` and a request opcode other
than RESPOND_IF_READY, `spdm_responder_handle_response_state` returns
RETURN_SUCCESS with an ERROR(RESPONSE_NOT_READY) response carrying
extended error data `{rd_exponent = 1, rd_tm = 1, request_code = opcode,
token = current_token before the call}`, caches the original request from
`last_spdm_request`/`last_spdm_request_size`, and increments
`current_token` by one (`uint8` post-increment, hence modulo 256). -/
theorem not_ready_emits_and_increments_token (ctx : spdm_context_t)
    (request_code : Nat)
    (hs : ctx.response_state = spdm_response_state_t.not_ready)
    (hrc : request_code ≠ SPDM_RESPOND_IF_READY) :
    spdm_responder_handle_response_state ctx request_code
      = (RETURN_SUCCESS,
         responder_rsp_t.extended_error_rsp
           ⟨SPDM_MESSAGE_VERSION_11, SPDM_ERROR,
            SPDM_ERROR_CODE_RESPONSE_NOT_READY, 0⟩
           ⟨1, request_code, ctx.current_token, 1⟩ 8,
         { ctx with
           cache_spdm_request :=
             copy_mem ctx.cache_spdm_request ctx.last_spdm_request
               ctx.last_spdm_request_size,
           cache_spdm_request_size := ctx.last_spdm_request_size,
           error_data := ⟨1, request_code, ctx.current_token, 1⟩,
           current_token := (ctx.current_token + 1) % 256 }) := by
  simp [spdm_responder_handle_response_state, hs, hrc,
    libspdm_generate_extended_error_response]

/-- Witness for C1: a concrete NotReady context receiving GET_VERSION
(0x84). -/
theorem not_ready_emits_and_increments_token_witness :
    spdm_responder_handle_response_state ctx_c1 0x84
      = (RETURN_SUCCESS,
         responder_rsp_t.extended_error_rsp
           ⟨SPDM_MESSAGE_VERSION_11, SPDM_ERROR,
            SPDM_ERROR_CODE_RESPONSE_NOT_READY, 0⟩
           ⟨1, 0x84, ctx_c1.current_token, 1⟩ 8,
         { ctx_c1 with
           cache_spdm_request :=
             copy_mem ctx_c1.cache_spdm_request ctx_c1.last_spdm_request
               ctx_c1.last_spdm_request_size,
           cache_spdm_request_size := ctx_c1.last_spdm_request_size,
           error_data := ⟨1, 0x84, ctx_c1.current_token, 1⟩,
           current_token := (ctx_c1.current_token + 1) % 256 }) :=
  not_ready_emits_and_increments_token ctx_c1 0x84 rfl (by decide)

/-- Claim C2: across two consecutive NOT_READY emissions (both under
`response_state = NotReady` with non-RESPOND_IF_READY opcodes, nothing
else touching `current_token` in between), the second emitted token equals
the first plus one modulo 256. -/
theorem consecutive_not_ready_tokens (ctx : spdm_context_t) (rc1 rc2 : Nat)
    (hs : ctx.response_state = spdm_response_state_t.not_ready)
    (h1 : rc1 ≠ SPDM_RESPOND_IF_READY) (h2 : rc2 ≠ SPDM_RESPOND_IF_READY) :
    ∃ t1,
      emitted_token (spdm_responder_handle_response_state ctx rc1).2.1
        = some t1
      ∧ emitted_token (spdm_responder_handle_response_state
          (spdm_responder_handle_response_state ctx rc1).2.2 rc2).2.1
        = some ((t1 + 1) % 256) := by
  refine ⟨ctx.current_token, ?_, ?_⟩ <;>
    simp [spdm_responder_handle_response_state, hs, h1, h2, emitted_token,
      libspdm_generate_extended_error_response]

/-- Witness for C2: a context whose token is 255, so the second emission
wraps to 0. -/
theorem consecutive_not_ready_tokens_witness :
    ∃ t1,
      emitted_token (spdm_responder_handle_response_state ctx_c2 0x84).2.1
        = some t1
      ∧ emitted_token (spdm_responder_handle_response_state
          (spdm_responder_handle_response_state ctx_c2 0x84).2.2 0x81).2.1
        = some ((t1 + 1) % 256) :=
  consecutive_not_ready_tokens ctx_c2 0x84 0x81 rfl (by decide) (by decide)

/-- Claim C3: with `response_state = NotReady` and opcode
RESPOND_IF_READY, the handler leaves the whole context — in particular
`error_data`, `cache_spdm_request`, `cache_spdm_request_size` and
`current_token` — unchanged, and the emitted ERROR(RESPONSE_NOT_READY)
response reuses the previously stored `error_data`. -/
theorem respond_if_ready_keeps_error_data (ctx : spdm_context_t)
    (hs : ctx.response_state = spdm_response_state_t.not_ready) :
    spdm_responder_handle_response_state ctx SPDM_RESPOND_IF_READY
      = (RETURN_SUCCESS,
         responder_rsp_t.extended_error_rsp
           ⟨SPDM_MESSAGE_VERSION_11, SPDM_ERROR,
            SPDM_ERROR_CODE_RESPONSE_NOT_READY, 0⟩
           ctx.error_data 8,
         ctx) := by
  simp [spdm_responder_handle_response_state, hs,
    libspdm_generate_extended_error_response]

/-- Witness for C3: a concrete NotReady context with stored error data
receiving RESPOND_IF_READY. -/
theorem respond_if_ready_keeps_error_data_witness :
    spdm_responder_handle_response_state ctx_c3 SPDM_RESPOND_IF_READY
      = (RETURN_SUCCESS,
         responder_rsp_t.extended_error_rsp
           ⟨SPDM_MESSAGE_VERSION_11, SPDM_ERROR,
            SPDM_ERROR_CODE_RESPONSE_NOT_READY, 0⟩
           ctx_c3.error_data 8,
         ctx_c3) :=
  respond_if_ready_keeps_error_data ctx_c3 rfl

/-- Claim C4: with `response_state = NeedResync`, every request opcode
yields RETURN_SUCCESS with an ERROR(REQUEST_RESYNCH) response, and the
context's `connection_state` is reset to NotStarted (no other field
changes). -/
theorem need_resync_resets_connection (ctx : spdm_context_t) (rc : Nat)
    (hs : ctx.response_state = spdm_response_state_t.need_resync) :
    spdm_responder_handle_response_state ctx rc
      = (RETURN_SUCCESS,
         responder_rsp_t.error_rsp
           ⟨SPDM_MESSAGE_VERSION_11, SPDM_ERROR,
            SPDM_ERROR_CODE_REQUEST_RESYNCH, 0⟩ 4,
         { ctx with connection_state := spdm_connection_state_t.not_started }) := by
  simp [spdm_responder_handle_response_state, hs,
    libspdm_generate_error_response, spdm_set_connection_state]

/-- Witness for C4: a concrete NeedResync context receiving
GET_CERTIFICATE (0x82). -/
theorem need_resync_resets_connection_witness :
    spdm_responder_handle_response_state ctx_c4 0x82
      = (RETURN_SUCCESS,
         responder_rsp_t.error_rsp
           ⟨SPDM_MESSAGE_VERSION_11, SPDM_ERROR,
            SPDM_ERROR_CODE_REQUEST_RESYNCH, 0⟩ 4,
         { ctx_c4 with
            connection_state := spdm_connection_state_t.not_started }) :=
  need_resync_resets_connection ctx_c4 0x82 rfl

/-- Claim C5: with `response_state = Busy`, every request opcode yields
RETURN_SUCCESS with an ERROR(BUSY) response and the context is returned
with no field changed. -/
theorem busy_replies_and_changes_nothing (ctx : spdm_context_t) (rc : Nat)
    (hs : ctx.response_state = spdm_response_state_t.busy) :
    spdm_responder_handle_response_state ctx rc
      = (RETURN_SUCCESS,
         responder_rsp_t.error_rsp
           ⟨SPDM_MESSAGE_VERSION_11, SPDM_ERROR, SPDM_ERROR_CODE_BUSY, 0⟩ 4,
         ctx) := by
  simp [spdm_responder_handle_response_state, hs,
    libspdm_generate_error_response]

/-- Witness for C5: a concrete Busy context receiving CHALLENGE (0x83). -/
theorem busy_replies_and_changes_nothing_witness :
    spdm_responder_handle_response_state ctx_c5 0x83
      = (RETURN_SUCCESS,
         responder_rsp_t.error_rsp
           ⟨SPDM_MESSAGE_VERSION_11, SPDM_ERROR, SPDM_ERROR_CODE_BUSY, 0⟩ 4,
         ctx_c5) :=
  busy_replies_and_changes_nothing ctx_c5 0x83 rfl

/-- Claim C6: with `response_state = ProcessingEncap`, any request whose
opcode is not ENCAPSULATED_RESPONSE_ACK is answered with an
ERROR(REQUEST_IN_FLIGHT) response, RETURN_SUCCESS, and an unmodified
context. -/
theorem processing_encap_request_in_flight (ctx : spdm_context_t) (rc : Nat)
    (hs : ctx.response_state = spdm_response_state_t.processing_encap)
    (hrc : rc ≠ SPDM_ENCAPSULATED_RESPONSE_ACK) :
    spdm_responder_handle_response_state ctx rc
      = (RETURN_SUCCESS,
         responder_rsp_t.error_rsp
           ⟨SPDM_MESSAGE_VERSION_11, SPDM_ERROR,
            SPDM_ERROR_CODE_REQUEST_IN_FLIGHT, 0⟩ 4,
         ctx) := by
  simp [spdm_responder_handle_response_state, hs,
    libspdm_generate_error_response]

/-- Witness for C6: a concrete ProcessingEncap context receiving
GET_VERSION (0x84). -/
theorem processing_encap_request_in_flight_witness :
    spdm_responder_handle_response_state ctx_c6 0x84
      = (RETURN_SUCCESS,
         responder_rsp_t.error_rsp
           ⟨SPDM_MESSAGE_VERSION_11, SPDM_ERROR,
            SPDM_ERROR_CODE_REQUEST_IN_FLIGHT, 0⟩ 4,
         ctx_c6) :=
  processing_encap_request_in_flight ctx_c6 0x84 rfl (by decide)

/-! ## Claims about the EC wrapper -/

/-- A P-256 key with all backend primitives succeeding, for the C7
witness. -/
def ec_key_ex : EC_KEY :=
  { nid := .prime256v1, pub_point := some (7, 9), generate_ok := true,
    bn_alloc_ok := true, coords_ok := true, sign_result := some (3, 4) }

/-- Claim C7: over P-256/P-384/P-521 the curve's half-size is 32/48/66
(so the required public-key size `2 * half` is 64/96/132); when the
caller-supplied size is smaller than `2 * half`, `ec_get_pub_key` and
`ec_generate_key` (with the backend key generation succeeding) return
FALSE and store the required size through the in/out size parameter, and
`ecdsa_sign` with a signature buffer smaller than `2 * half` returns FALSE
and reports the required signature size in `sig_size`. -/
theorem ec_buffer_too_small_reports_size (k : EC_KEY) (half sz : Nat)
    (hc : ec_half_size k.nid = some half) (hsz : sz < half * 2)
    (hgen : k.generate_ok = true) :
    (half = 32 ∨ half = 48 ∨ half = 66)
    ∧ ec_get_pub_key (some k) false (some sz) = (false, some (half * 2), [])
    ∧ ec_generate_key (some k) false (some sz) = (false, some (half * 2), [])
    ∧ ∀ (hash_nid hash_size : Nat) (mh : List Nat),
        ecdsa_sign (some k) hash_nid (some mh) hash_size false sz
          = (false, half * 2, []) := by
  refine ⟨?_, ?_, ?_, ?_⟩
  · cases hn : k.nid <;> simp [ec_half_size, hn] at hc <;> omega
  · simp [ec_get_pub_key, hc, hsz]
  · simp [ec_generate_key, hc, hsz, hgen]
  · intro hash_nid hash_size mh
    simp [ecdsa_sign, hc, hsz]

/-- Witness for C7: a P-256 key and a 10-byte buffer; the required size 64
is reported by all three functions. -/
theorem ec_buffer_too_small_reports_size_witness :
    (32 = 32 ∨ 32 = 48 ∨ 32 = 66)
    ∧ ec_get_pub_key (some ec_key_ex) false (some 10)
        = (false, some (32 * 2), [])
    ∧ ec_generate_key (some ec_key_ex) false (some 10)
        = (false, some (32 * 2), [])
    ∧ ∀ (hash_nid hash_size : Nat) (mh : List Nat),
        ecdsa_sign (some ec_key_ex) hash_nid (some mh) hash_size false 10
          = (false, 32 * 2, []) :=
  ec_buffer_too_small_reports_size ec_key_ex 32 10 rfl (by decide) rfl

/-! ## Claim about the encapsulated ERROR responses -/

/-- Claim C8: for every error code and error data byte,
`spdm_generate_encap_error_response` returns RETURN_SUCCESS, reports the
four-byte header size, and writes exactly the header
`{SPDM 1.1, ERROR, error_code, error_data}`;
`spdm_generate_encap_extended_error_response` additionally copies the
extended error data immediately after the header and reports
`4 + extended_error_data_size`, also returning RETURN_SUCCESS. -/
theorem encap_error_response_layout (error_code error_data : Nat)
    (response_size : Nat) (response : List Nat)
    (ext_size : Nat) (ext : List Nat) (hext : ext_size ≤ ext.length) :
    (spdm_generate_encap_error_response error_code error_data
        response_size response).1 = RETURN_SUCCESS
    ∧ (spdm_generate_encap_error_response error_code error_data
        response_size response).2.1 = 4
    ∧ (spdm_generate_encap_error_response error_code error_data
        response_size response).2.2.take 4
      = [SPDM_MESSAGE_VERSION_11, SPDM_ERROR, error_code, error_data]
    ∧ (spdm_generate_encap_extended_error_response error_code error_data
        ext_size ext response_size response).1 = RETURN_SUCCESS
    ∧ (spdm_generate_encap_extended_error_response error_code error_data
        ext_size ext response_size response).2.1 = 4 + ext_size
    ∧ (spdm_generate_encap_extended_error_response error_code error_data
        ext_size ext response_size response).2.2.take 4
      = [SPDM_MESSAGE_VERSION_11, SPDM_ERROR, error_code, error_data]
    ∧ ((spdm_generate_encap_extended_error_response error_code error_data
        ext_size ext response_size response).2.2.drop 4).take ext_size
      = ext.take ext_size := by
  have hlen : (ext.take ext_size).length = ext_size := by
    simp [Nat.min_eq_left hext]
  refine ⟨rfl, rfl, by simp [spdm_generate_encap_error_response], rfl, rfl,
    by simp [spdm_generate_encap_extended_error_response], ?_⟩
  simp only [spdm_generate_encap_extended_error_response, List.cons_append,
    List.nil_append, List.drop_succ_cons, List.drop_zero]
  rw [List.take_append_of_le_length (le_of_eq hlen.symm)]
  simp [List.take_take]

/-- Witness for C8: error code 0x42 with one byte of extended data and a
five-byte response buffer. -/
theorem encap_error_response_layout_witness :
    (spdm_generate_encap_error_response 0x42 0 8 [9, 9, 9, 9, 9]).1
      = RETURN_SUCCESS
    ∧ (spdm_generate_encap_error_response 0x42 0 8 [9, 9, 9, 9, 9]).2.1 = 4
    ∧ (spdm_generate_encap_error_response 0x42 0 8
        [9, 9, 9, 9, 9]).2.2.take 4
      = [SPDM_MESSAGE_VERSION_11, SPDM_ERROR, 0x42, 0]
    ∧ (spdm_generate_encap_extended_error_response 0x42 0 1 [0xAB] 8
        [9, 9, 9, 9, 9]).1 = RETURN_SUCCESS
    ∧ (spdm_generate_encap_extended_error_response 0x42 0 1 [0xAB] 8
        [9, 9, 9, 9, 9]).2.1 = 4 + 1
    ∧ (spdm_generate_encap_extended_error_response 0x42 0 1 [0xAB] 8
        [9, 9, 9, 9, 9]).2.2.take 4
      = [SPDM_MESSAGE_VERSION_11, SPDM_ERROR, 0x42, 0]
    ∧ ((spdm_generate_encap_extended_error_response 0x42 0 1 [0xAB] 8
        [9, 9, 9, 9, 9]).2.2.drop 4).take 1
      = [0xAB].take 1 :=
  encap_error_response_layout 0x42 0 8 [9, 9, 9, 9, 9] 1 [0xAB] (by decide)

/-! ## Claim about the dummy AEAD backend -/

/-- Claim C9: the dummy ChaCha20-Poly1305 backend returns FALSE on every
input — including the documented valid sizes (key 32, IV 12, tag 16) — so
it can never seal or open any record. -/
theorem aead_chacha20_poly1305_dummy_never_succeeds :
    ∀ (key : List Nat) (key_size : Nat) (iv : List Nat) (iv_size : Nat)
      (a_data : List Nat) (a_data_size : Nat) (data_in : List Nat)
      (data_in_size : Nat) (tag : List Nat) (tag_size : Nat),
      aead_chacha20_poly1305_encrypt key key_size iv iv_size a_data
        a_data_size data_in data_in_size tag_size = false
      ∧ aead_chacha20_poly1305_decrypt key key_size iv iv_size a_data
        a_data_size data_in data_in_size tag tag_size = false := by
  intro key key_size iv iv_size a_data a_data_size data_in data_in_size
    tag tag_size
  exact ⟨rfl, rfl⟩

/-! ## Claim about the SHA wrappers' argument guards -/

/-- Claim C10: for `sha384_update`, `sha512_update`, `sha384_hash_all` and
`sha512_hash_all`, a NULL data pointer with nonzero size, or a size above
INT_MAX, yields FALSE without the mbedTLS backend being invoked; a NULL
context (update) or NULL hash_value (hash_all) likewise yields FALSE
without invoking the backend, so the wrappers never dereference a NULL
argument. -/
theorem sha_wrappers_guard_bad_arguments
    (context_null data_null hash_value_null : Bool)
    (data_size : Nat) (mbedtls_ret : Int)
    (hbad : (data_null = true ∧ data_size ≠ 0) ∨ INT_MAX < data_size) :
    (sha384_update context_null data_null data_size mbedtls_ret
        = (false, false)
      ∧ sha512_update context_null data_null data_size mbedtls_ret
        = (false, false)
      ∧ sha384_hash_all data_null data_size hash_value_null mbedtls_ret
        = (false, false)
      ∧ sha512_hash_all data_null data_size hash_value_null mbedtls_ret
        = (false, false))
    ∧ (∀ (dn : Bool) (ds : Nat) (r : Int),
        sha384_update true dn ds r = (false, false)
        ∧ sha512_update true dn ds r = (false, false)
        ∧ sha384_hash_all dn ds true r = (false, false)
        ∧ sha512_hash_all dn ds true r = (false, false)) := by
  constructor
  · rcases hbad with ⟨h1, h2⟩ | h
    · subst h1
      cases context_null <;> cases hash_value_null <;>
        simp [sha384_update, sha512_update, sha384_hash_all,
          sha512_hash_all, h2]
    · have h0 : data_size ≠ 0 := by
        intro h0
        rw [h0] at h
        exact absurd h (by decide)
      cases context_null <;> cases hash_value_null <;> cases data_null <;>
        simp [sha384_update, sha512_update, sha384_hash_all,
          sha512_hash_all, h, h0]
  · intro dn ds r
    cases dn <;>
      simp [sha384_update, sha512_update, sha384_hash_all, sha512_hash_all]

/-- Witness for C10: a NULL data pointer with data_size 1 is rejected by
all four wrappers without the backend running. -/
theorem sha_wrappers_guard_bad_arguments_witness :
    (sha384_update false true 1 0 = (false, false)
      ∧ sha512_update false true 1 0 = (false, false)
      ∧ sha384_hash_all true 1 false 0 = (false, false)
      ∧ sha512_hash_all true 1 false 0 = (false, false))
    ∧ (∀ (dn : Bool) (ds : Nat) (r : Int),
        sha384_update true dn ds r = (false, false)
        ∧ sha512_update true dn ds r = (false, false)
        ∧ sha384_hash_all dn ds true r = (false, false)
        ∧ sha512_hash_all dn ds true r = (false, false)) :=
  sha_wrappers_guard_bad_arguments false true false 1 0
    (Or.inl ⟨rfl, by decide⟩)
